import Mathlib

/-!
Verification development for the yogger diagnostic-logging module
(src/yogger/base.py).  Python runtime values, the recursive
pretty-printer `pformat`, the stack/exception dump machinery, and the
global-configuration functions are shallowly embedded as executable Lean
definitions, translated line by line from the source.  The theorems at
the end of the file settle the frozen claims about the module.

Modelling conventions:
- Python strings are Lean `String`s; machine text is built with explicit
  character codes where the character would be awkward in a literal
  (single quote = 39, brace = 123/125, escape = 27).
- The module treats the `requests` package as absent
  (`_has_requests_package = False`); the value universe therefore
  contains no requests objects, and the corresponding branches of
  `pformat` (base.py lines 250-259) are vacuous.
- `str.replace("\n", "\n  ")` is modelled by `indentNewlines`, a
  structurally recursive single-character replacement (the only pattern
  the module ever replaces is the one-character string "\n").
- Raising an exception is modelled with `Except String`, the error
  carrying the Python exception text.
-/

-- Frequently used character codes.
def nlChar : Char := Char.ofNat 10
def sqChar : Char := Char.ofNat 39
def dqChar : Char := Char.ofNat 34
def bsChar : Char := Char.ofNat 92
def slashChar : Char := Char.ofNat 47
def tildeChar : Char := Char.ofNat 126

-- Single-quote, left-brace and right-brace as strings.
def sglq : String := String.singleton sqChar
def lbr : String := "\x7b"
def rbr : String := "\x7d"

/-- Join a list of strings with a separator (structural `str.join`). -/
def joinSep (sep : String) : List String → String
  | [] => ""
  | [x] => x
  | x :: y :: xs => x ++ sep ++ joinSep sep (y :: xs)

/-- Concatenation of a list of strings. -/
def strConcat : List String → String
  | [] => ""
  | x :: xs => x ++ strConcat xs

/-- Model of `str.replace("\n", "\n  ")`: every newline character is
replaced by a newline followed by two spaces. -/
def indentNewlines (s : String) : String :=
  strConcat (s.data.map fun c =>
    if c = nlChar then "\n  " else String.singleton c)

/--
Universe of Python runtime values the module can encounter, restricted
to the types `pformat` (base.py lines 239-275) dispatches on plus an
opaque fallback:
- `vNone`, `vBool`, `vInt`, `vStr`, `vBytes`: scalar builtins
  (`vBytes` carries its payload as printable ASCII text);
- `vList`, `vTuple`, `vSet`, `vDeque`: the containers matched by
  `isinstance(value, (list, tuple, set, collections.deque))`, elements
  kept in iteration order;
- `vDict`: a builtin dict as an association list in insertion order;
- `vDataclass mod name fields`: a dataclass instance of class
  `mod.name` with its fields in declaration order;
- `vOther mod name rep`: any other object, of type `mod.name`, whose
  `repr` is the string `rep`.
-/
inductive PyValue where
  | vNone : PyValue
  | vBool : Bool → PyValue
  | vInt : Int → PyValue
  | vStr : String → PyValue
  | vBytes : String → PyValue
  | vList : List PyValue → PyValue
  | vTuple : List PyValue → PyValue
  | vSet : List PyValue → PyValue
  | vDeque : List PyValue → PyValue
  | vDict : List (PyValue × PyValue) → PyValue
  | vDataclass : String → String → List (String × PyValue) → PyValue
  | vOther : String → String → String → PyValue

/-- Escape one character of a Python string literal quoted with `quote`. -/
def pyStrEscapeChar (quote : Char) (c : Char) : String :=
  if c = bsChar then String.singleton bsChar ++ String.singleton bsChar
  else if c = quote then String.singleton bsChar ++ String.singleton c
  else if c = nlChar then String.singleton bsChar ++ "n"
  else if c = Char.ofNat 13 then String.singleton bsChar ++ "r"
  else if c = Char.ofNat 9 then String.singleton bsChar ++ "t"
  else String.singleton c

/-- Python `repr` of a string (printable characters): single quotes,
switching to double quotes when the text contains a single quote but no
double quote, with backslash escapes for the quote character,
backslash, newline, carriage return and tab. -/
def pyStrRepr (s : String) : String :=
  let quote := if s.data.contains sqChar && !(s.data.contains dqChar)
               then dqChar else sqChar
  String.singleton quote
    ++ strConcat (s.data.map (pyStrEscapeChar quote))
    ++ String.singleton quote

/-- Python `type(value).__module__` for values of the universe. -/
def pyTypeModule : PyValue → String
  | .vDeque _ => "collections"
  | .vDataclass m _ _ => m
  | .vOther m _ _ => m
  | _ => "builtins"

/-- Python `type(value).__name__` for values of the universe. -/
def pyTypeName : PyValue → String
  | .vNone => "NoneType"
  | .vBool _ => "bool"
  | .vInt _ => "int"
  | .vStr _ => "str"
  | .vBytes _ => "bytes"
  | .vList _ => "list"
  | .vTuple _ => "tuple"
  | .vSet _ => "set"
  | .vDeque _ => "deque"
  | .vDict _ => "dict"
  | .vDataclass _ n _ => n
  | .vOther _ n _ => n

/-- Python `str(type(value))`, e.g. `<class 'int'>`; the module part is
omitted for builtins, as CPython does. -/
def pyTypeStr (v : PyValue) : String :=
  "<class " ++ sglq
    ++ (if pyTypeModule v = "builtins" then pyTypeName v
        else pyTypeModule v ++ "." ++ pyTypeName v)
    ++ sglq ++ ">"

mutual

/-- Python `repr(value)` over the universe. -/
def pyRepr : PyValue → String
  | .vNone => "None"
  | .vBool b => if b then "True" else "False"
  | .vInt n => toString n
  | .vStr s => pyStrRepr s
  | .vBytes s => "b" ++ pyStrRepr s
  | .vList es => "[" ++ joinSep ", " (pyReprList es) ++ "]"
  | .vTuple [x] => "(" ++ pyRepr x ++ ",)"
  | .vTuple es => "(" ++ joinSep ", " (pyReprList es) ++ ")"
  | .vSet [] => "set()"
  | .vSet es => lbr ++ joinSep ", " (pyReprList es) ++ rbr
  | .vDeque es => "deque([" ++ joinSep ", " (pyReprList es) ++ "])"
  | .vDict kvs => lbr ++ joinSep ", " (pyReprPairs kvs) ++ rbr
  | .vDataclass _ n fields => n ++ "(" ++ joinSep ", " (pyReprFields fields) ++ ")"
  | .vOther _ _ r => r

def pyReprList : List PyValue → List String
  | [] => []
  | v :: rest => pyRepr v :: pyReprList rest

def pyReprPairs : List (PyValue × PyValue) → List String
  | [] => []
  | (k, v) :: rest => (pyRepr k ++ ": " ++ pyRepr v) :: pyReprPairs rest

def pyReprFields : List (String × PyValue) → List String
  | [] => []
  | (fn, fv) :: rest => (fn ++ "=" ++ pyRepr fv) :: pyReprFields rest

end

/-- Python `isinstance(v, (int, str))`; `bool` is a subclass of `int`,
so booleans satisfy it. -/
def isinstIntOrStr : PyValue → Bool
  | .vInt _ => true
  | .vBool _ => true
  | .vStr _ => true
  | _ => false

/-- base.py lines 85-97, `_apply_line_continuation`.  The source reads

    if "\n" in obj_repr:
        "\\\n  " + obj_repr.replace("\n", "\n  ")
    return obj_repr

The expression on the second line is computed and discarded (it is a
statement with no effect), so the function returns its argument
unchanged. -/
def _apply_line_continuation (obj_repr : String) : String :=
  obj_repr

mutual

/-- base.py lines 239-275, `pformat`: formatted representation of a
variable's name and value.  The requests branches (lines 250-259) are
vacuous here because the universe holds no requests objects.  The
container branches write out `_object_container_repr` (lines 197-218;
the standalone definition below restates them verbatim), the dict
branch `_dict_repr` (lines 181-194), and the dataclass branch
`_dataclass_repr` (lines 221-236). -/
def pformat (name : String) (value : PyValue) : String :=
  match value with
  | .vDict kvs =>
    -- _dict_repr: header with the type, then one indented entry per item
    name ++ " = <" ++ pyTypeModule (.vDict kvs) ++ "." ++ pyTypeName (.vDict kvs)
      ++ ">\n  " ++ joinSep "\n  " (pformatDictEntries name kvs)
  | .vList es =>
    _apply_line_continuation
      (if es.all isinstIntOrStr then name ++ " = " ++ pyRepr (.vList es)
       else name ++ " = <" ++ pyTypeModule (.vList es) ++ "." ++ pyTypeName (.vList es)
          ++ ">\n  " ++ joinSep "\n  " (pformatElems name 0 es))
  | .vTuple es =>
    _apply_line_continuation
      (if es.all isinstIntOrStr then name ++ " = " ++ pyRepr (.vTuple es)
       else name ++ " = <" ++ pyTypeModule (.vTuple es) ++ "." ++ pyTypeName (.vTuple es)
          ++ ">\n  " ++ joinSep "\n  " (pformatElems name 0 es))
  | .vSet es =>
    _apply_line_continuation
      (if es.all isinstIntOrStr then name ++ " = " ++ pyRepr (.vSet es)
       else name ++ " = <" ++ pyTypeModule (.vSet es) ++ "." ++ pyTypeName (.vSet es)
          ++ ">\n  " ++ joinSep "\n  " (pformatElems name 0 es))
  | .vDeque es =>
    _apply_line_continuation
      (if es.all isinstIntOrStr then name ++ " = " ++ pyRepr (.vDeque es)
       else name ++ " = <" ++ pyTypeModule (.vDeque es) ++ "." ++ pyTypeName (.vDeque es)
          ++ ">\n  " ++ joinSep "\n  " (pformatElems name 0 es))
  | .vDataclass m n fields =>
    -- _dataclass_repr: header with the type, then one entry per field
    name ++ " = <" ++ pyTypeModule (.vDataclass m n fields) ++ "."
      ++ pyTypeName (.vDataclass m n fields) ++ ">\n  "
      ++ joinSep "\n  " (pformatFields name fields)
  | v =>
    -- generic fallback, lines 271-275
    _apply_line_continuation (name ++ " = " ++ pyRepr v)

/-- Entries of `_dict_repr`: `pformat(f"{name}[{k!r}]", v)` with interior
newlines indented, in insertion order. -/
def pformatDictEntries (name : String) : List (PyValue × PyValue) → List String
  | [] => []
  | (k, v) :: rest =>
    indentNewlines (pformat (name ++ "[" ++ pyRepr k ++ "]") v)
      :: pformatDictEntries name rest

/-- Entries of `_object_container_repr`: `pformat(f"{name}[{i}]", v)`
with interior newlines indented, in element order. -/
def pformatElems (name : String) (i : Nat) : List PyValue → List String
  | [] => []
  | v :: rest =>
    indentNewlines (pformat (name ++ "[" ++ toString i ++ "]") v)
      :: pformatElems name (i + 1) rest

/-- Entries of `_dataclass_repr` (base.py lines 233-235):
`pformat(f"{name}.{f}", f) + " = " + pformat(f"{name}.{f}", value)` with
interior newlines of the second part indented.  The first call applies
`pformat` to the field name, a plain string, so it is written here as
the generic-fallback branch that call always takes. -/
def pformatFields (name : String) : List (String × PyValue) → List String
  | [] => []
  | (fn, fv) :: rest =>
    (_apply_line_continuation ((name ++ "." ++ fn) ++ " = " ++ pyRepr (.vStr fn))
        ++ " = " ++ indentNewlines (pformat (name ++ "." ++ fn) fv))
      :: pformatFields name rest

end

/-- base.py lines 197-218, `_object_container_repr`: single line when
every element is an `int` or `str` (vacuously so for an empty
container), otherwise a multi-line listing; the result is passed through
`_apply_line_continuation`.  The container branches of `pformat` above
restate this definition with `value` instantiated. -/
def _object_container_repr (name : String) (value : PyValue) (es : List PyValue) : String :=
  _apply_line_continuation
    (if es.all isinstIntOrStr then
      name ++ " = " ++ pyRepr value
    else
      name ++ " = <" ++ pyTypeModule value ++ "." ++ pyTypeName value
        ++ ">\n  " ++ joinSep "\n  " (pformatElems name 0 es))

/--
One entry of an interpreter stack (`inspect.FrameInfo`), as consumed by
`_stack_dumps` (base.py lines 295-338):
- `moduleName`: the `__name__` of `inspect.getmodule(frame)`, `none`
  when the frame has no resolvable module (e.g. `dataclass.__init__`);
- `filename`, `lineno`, `function`: the source location fields;
- `locals`: the frame's `f_locals` mapping in iteration order;
- `selfDict`: `repr(locals["self"].__dict__)` when `"self"` is bound in
  the frame and the bound object has a `__dict__` attribute, `none`
  otherwise (folding the two Python conditions of line 333 into one
  optional field).
-/
structure FrameInfo where
  moduleName : Option String
  filename : String
  lineno : Nat
  function : String
  locals : List (String × PyValue)
  selfDict : Option String

/-- The "Locals from file ..." section `_stack_dumps` emits for one
included frame (base.py lines 324-336). -/
def frameSection (f : FrameInfo) : String :=
  "Locals from file \"" ++ f.filename ++ "\", line " ++ toString f.lineno
      ++ ", in " ++ f.function ++ ":\n"
    ++ strConcat (f.locals.map fun nv =>
        "  " ++ nv.1 ++ " " ++ pyTypeStr nv.2 ++ " = "
          ++ indentNewlines (pformat nv.1 nv.2) ++ "\n")
    ++ "\n"
    ++ (match f.selfDict with
        | some d => "Object dict:\n" ++ d ++ "\n\n"
        | none => "")

/-- The first `some` met when scanning a list of optional module names
from its end towards its start; models the search
`for j in reversed(range(i)): if modules[j] is not None: break`
(base.py lines 313-315). -/
def lastSome (l : List (Option String)) : Option String :=
  l.reverse.findSome? id

/-- The filter of base.py line 323: keep the frame when no package name
is configured, or when the module name starts with the package name
followed by a dot, or equals the package name. -/
def moduleMatches (package_name : Option String) (m : String) : Bool :=
  match package_name with
  | none => true
  | some p => (p ++ ".").data.isPrefixOf m.data || m == p

/-- The loop of `_stack_dumps` from index `i` on, with `modules` the
precomputed list `[inspect.getmodule(fr) for fr in stack]` of the whole
stack (base.py lines 309-338).  A moduleless frame borrows the module of
the nearest earlier frame that has one and is skipped when there is no
such frame. -/
def stackDumpsFrom (modules : List (Option String)) (package_name : Option String) :
    Nat → List FrameInfo → String
  | _, [] => ""
  | i, f :: rest =>
    (match (match f.moduleName with
            | some m => some m
            | none => lastSome (modules.take i)) with
     | none => ""
     | some m => if moduleMatches package_name m then frameSection f else "")
      ++ stackDumpsFrom modules package_name (i + 1) rest

/-- base.py lines 295-338, `_stack_dumps`: string representation of the
frames of a stack, filtered by package name. -/
def _stack_dumps (stack : List FrameInfo) (package_name : Option String) : String :=
  stackDumpsFrom (stack.map (·.moduleName)) package_name 0 stack

/-- base.py lines 351-362, `dumps`: the public stack representation,
which never filters by package. -/
def dumps (stack : List FrameInfo) : String :=
  _stack_dumps stack none

/--
A raised Python exception as `_exception_dumps` consumes it:
`typeModule`/`typeName` are `type(e).__module__`/`type(e).__name__`,
`message` is `str(e)`, and `argsRepr` is `repr(e.args)`.
-/
structure PyException where
  typeModule : String
  typeName : String
  message : String
  argsRepr : String

/-- The `AttributeError` text raised by `None.args`. -/
def noneArgsAttributeError : String :=
  "AttributeError: " ++ sglq ++ "NoneType" ++ sglq
    ++ " object has no attribute " ++ sglq ++ "args" ++ sglq

/-- base.py lines 278-292, `_exception_dumps`.  The parameter is
annotated `Exception` in the source but `Yogger._log_with_stack` passes
`None` (line 58); in that case the f-string of line 290 evaluates
`e.args` on `None` and raises an `AttributeError`, modelled by the
`Except` error. -/
def _exception_dumps : Option PyException → Except String String
  | none => .error noneArgsAttributeError
  | some e => .ok ("Exception:\n  " ++ e.typeModule ++ "." ++ e.typeName
      ++ ": " ++ e.message ++ "\n  args: " ++ e.argsRepr ++ "\n\n")

/--
The module-level mutable configuration of base.py lines 31-33:
`_global_package_name`, `_global_dump_path`, `_global_dump_locals`.
-/
structure GlobalState where
  packageName : Option String
  dumpPath : Option String
  dumpLocals : Bool

/--
Ambient process state consumed by path resolution and temporary-file
creation:
- `cwd`: the current working directory (`os.getcwd()`);
- `home`: the expansion of `~` (the `HOME` environment variable);
- `userHomes`: the password database backing `~user` expansion;
- `tempName`: the fresh file name `tempfile.NamedTemporaryFile` picks;
  the name of a file that does not exist yet.
-/
structure SysEnv where
  cwd : String
  home : String
  userHomes : List (String × String)
  tempName : String

/-- A file system as an association list from absolute path to text
contents. -/
abbrev FS := List (String × String)

/-- Contents of the file at `p`, when it exists. -/
def fsRead (fs : FS) (p : String) : Option String :=
  (fs.find? fun kv => kv.1 == p).map (·.2)

/-- Create or overwrite the file at `p` with contents `s`. -/
def fsSet : FS → String → String → FS
  | [], p, s => [(p, s)]
  | kv :: rest, p, s =>
    if kv.1 == p then (p, s) :: rest else kv :: fsSet rest p s

/-- Open the file at `p` in append mode (`mode="a"`) and write `s`: the
new contents are the old contents (empty for a fresh file) followed by
`s`. -/
def fsAppend (fs : FS) (p : String) (s : String) : FS :=
  fsSet fs p ((fsRead fs p).getD "" ++ s)

/-- Whether a path is absolute (`os.path.isabs`: starts with a slash). -/
def isAbsPath (p : String) : Bool :=
  match p.data with
  | c :: _ => c = slashChar
  | [] => false

/-- Strip trailing slashes (`str.rstrip("/")`). -/
def rstripSlash (s : String) : String :=
  String.mk (s.data.reverse.dropWhile (· = slashChar)).reverse

/-- Index of the first slash of `path` at position 1 or later, or the
length of `path` when there is none (`path.find("/", 1)` with the
negative result replaced by `len(path)`). -/
def slashIdxFromOne (path : String) : Nat :=
  match (path.data.drop 1).findIdx? (· = slashChar) with
  | some k => k + 1
  | none => path.data.length

/-- `os.path.expanduser` for POSIX: a leading `~` expands to `home`, a
leading `~user` to the home directory of `user` from the password
database (the path is returned unchanged when `user` is unknown); the
matched home directory loses its trailing slashes, and an empty result
becomes "/". -/
def expanduser (home : String) (userHomes : List (String × String)) (path : String) : String :=
  if path.data.head? = some tildeChar then
    let i := slashIdxFromOne path
    let rest := String.mk (path.data.drop i)
    let userpart := String.mk ((path.data.drop 1).take (i - 1))
    let userhome : Option String :=
      if i = 1 then some home
      else ((userHomes.find? fun u => u.1 == userpart).map (·.2))
    match userhome with
    | none => path
    | some uh =>
      let r := rstripSlash uh ++ rest
      if r = "" then "/" else r
  else path

/-- `os.path.join(a, b)` for POSIX, for the cases the module reaches:
`b` if `b` is absolute, otherwise `a` and `b` glued with a single slash
unless `a` is empty or already ends with one. -/
def joinPath (a b : String) : String :=
  if isAbsPath b then b
  else if a = "" ∨ a.data.getLast? = some slashChar then a ++ b
  else a ++ "/" ++ b

/-- Split a string on slashes (`path.split("/")`), keeping empty
components. -/
def splitSlashAux : List Char → List Char → List String
  | [], acc => [String.mk acc.reverse]
  | c :: rest, acc =>
    if c = slashChar then String.mk acc.reverse :: splitSlashAux rest []
    else splitSlashAux rest (c :: acc)

def splitOnSlash (s : String) : List String :=
  splitSlashAux s.data []

/-- One step of `posixpath.normpath`'s component loop: `comp` is neither
empty nor "."; ".." pops the last collected component except at the root
of an absolute path or when nothing (or only ".."s) has been collected
on a relative path. -/
def normpathStep (leadSlashes : Nat) (acc : List String) (comp : String) : List String :=
  if comp ≠ ".." ∨ (leadSlashes = 0 ∧ acc = []) ∨ acc.getLast? = some ".." then
    acc ++ [comp]
  else if acc ≠ [] then acc.dropLast
  else acc

/-- Number of slashes `posixpath.normpath` preserves at the front: two
when the path starts with exactly two slashes, one when it starts with a
slash, zero otherwise. -/
def leadSlashCountOf (p : String) : Nat :=
  if (p.data.takeWhile (· = slashChar)).length = 2 then 2
  else if 1 ≤ (p.data.takeWhile (· = slashChar)).length then 1 else 0

/-- The slash-joined component list of `posixpath.normpath`. -/
def normpathBody (p : String) : String :=
  joinSep "/" (((splitOnSlash p).filter fun c => c ≠ "" && c ≠ ".").foldl
    (normpathStep (leadSlashCountOf p)) [])

/-- `posixpath.normpath`: collapse empty and "." components, resolve
".." where possible, keep the leading slashes; an empty input or result
becomes ".". -/
def normpath (p : String) : String :=
  if p = "" then "."
  else if String.mk (List.replicate (leadSlashCountOf p) slashChar) ++ normpathBody p = "" then "."
  else String.mk (List.replicate (leadSlashCountOf p) slashChar) ++ normpathBody p

/-- base.py lines 480-504, `_resolve_path` restricted to `str` inputs
(the `bytes` and `__fspath__` conversions of lines 489-495 only turn
the other path-like types into `str`): expand `~` and `~user`, then make
the path absolute against the current working directory when it is not
already absolute (`os.path.abspath` is `normpath(join(cwd, path))`). -/
def _resolve_path (env : SysEnv) (path : String) : String :=
  if isAbsPath (expanduser env.home env.userHomes path) then
    expanduser env.home env.userHomes path
  else normpath (joinPath env.cwd (expanduser env.home env.userHomes path))

/-- Python truthiness of an optional path string: `None` and the empty
string are falsy. -/
def pyTruthyPath : Option String → Bool
  | none => false
  | some s => s ≠ ""

/-- The Python expression `dump_path or _global_dump_path`
(base.py line 381). -/
def pyOrPath (a b : Option String) : Option String :=
  if pyTruthyPath a then a else b

/-- base.py lines 39-47, `_DUMP_MSG` (on a non-Windows platform),
formatted with the dump path. -/
def dumpMsg (name : String) : String :=
  "\n\n" ++ "\x1b[1m" ++ "Dumped stack and locals to \"" ++ name ++ "\""
    ++ "\x1b[0m" ++ "\nCopy and paste the following to view:\n\n    cat "
    ++ sglq ++ name ++ sglq ++ "\n"

/-- base.py lines 365-396, `_dump`: build the text (stack sections, a
newline, then the exception representation), then append it to the
user-provided path (per-call override or the configured global, with
the empty string counting as unset) after resolving it, or write it to
a fresh named temporary file; the written path is returned.  Building
the text evaluates `_exception_dumps(e)`, which raises when `e` is
`None` (see `_exception_dumps`); the error aborts the dump before any
file is touched. -/
def _dump (g : GlobalState) (env : SysEnv) (fs : FS) (stack : List FrameInfo)
    (e : Option PyException) (dump_path : Option String) :
    Except String (String × FS) :=
  match _exception_dumps e with
  | .error msg => .error msg
  | .ok eRepr =>
    let dump_repr := _stack_dumps stack g.packageName ++ "\n" ++ eRepr
    match pyOrPath dump_path g.dumpPath with
    | some p =>
      let rp := _resolve_path env p
      .ok (rp, fsAppend fs rp dump_repr)
    | none => .ok (env.tempName, fsSet fs env.tempName dump_repr)

/-- Standard logging level numbers. -/
def INFO : Nat := 20
def WARNING : Nat := 30
def ERROR : Nat := 40
def CRITICAL : Nat := 50

/--
Observable outcome of one call to a `Yogger` logging method:
- `events`: the `(level, message)` pairs emitted through
  `logging.Logger.log`, in order;
- `fs`: the file system afterwards;
- `dumpedTo`: the path of the dump file when one was written;
- `raised`: the text of the exception propagating out of the call, when
  one does.
-/
structure LogOutcome where
  events : List (Nat × String)
  fs : FS
  dumpedTo : Option String
  raised : Option String

/-- base.py lines 51-59, `Yogger._log_with_stack`.  `outerStack` holds
the frames above the public logging method, so that `inspect.stack()`
seen inside `_log_with_stack` is the frame of `_log_with_stack`, the
frame of the public method, then `outerStack`; `stack[2:][::-1]` is
therefore `outerStack` reversed, and `len(stack) > 2` holds exactly when
`outerStack` is nonempty.  The message is logged first; when
`_global_dump_locals` is set, `_dump` is called with `e=None` and its
outcome (a written dump plus a second log line, or the `AttributeError`
that `_exception_dumps(None)` raises) follows. -/
def _log_with_stack (g : GlobalState) (env : SysEnv) (fs : FS)
    (level : Nat) (msg : String) (outerStack : List FrameInfo) : LogOutcome :=
  let ev := [(level, msg)]
  if g.dumpLocals then
    if 2 + outerStack.length > 2 then
      match _dump g env fs outerStack.reverse none none with
      | .ok (name, fs2) =>
        ⟨ev ++ [(level, dumpMsg name)], fs2, some name, none⟩
      | .error m => ⟨ev, fs, none, some m⟩
    else ⟨ev, fs, none, none⟩
  else ⟨ev, fs, none, none⟩

/-- base.py lines 61-62, `Yogger.warning`. -/
def yoggerWarning (g : GlobalState) (env : SysEnv) (fs : FS)
    (msg : String) (outerStack : List FrameInfo) : LogOutcome :=
  _log_with_stack g env fs WARNING msg outerStack

/-- base.py lines 64-65, `Yogger.error`. -/
def yoggerError (g : GlobalState) (env : SysEnv) (fs : FS)
    (msg : String) (outerStack : List FrameInfo) : LogOutcome :=
  _log_with_stack g env fs ERROR msg outerStack

/-- base.py lines 67-68, `Yogger.critical`. -/
def yoggerCritical (g : GlobalState) (env : SysEnv) (fs : FS)
    (msg : String) (outerStack : List FrameInfo) : LogOutcome :=
  _log_with_stack g env fs CRITICAL msg outerStack

/-- base.py lines 70-74, `Yogger.log`: delegate to `_log_with_stack` at
warning level or higher, plain logging below. -/
def yoggerLog (g : GlobalState) (env : SysEnv) (fs : FS)
    (level : Nat) (msg : String) (outerStack : List FrameInfo) : LogOutcome :=
  if level ≥ WARNING then _log_with_stack g env fs level msg outerStack
  else ⟨[(level, msg)], fs, none, none⟩

/--
Observable outcome of `dump_on_exception` when the governed block raised
exception `e`:
- `fs`, `events`, `dumpedTo` as in `LogOutcome`;
- `raised`: `.ok e` when the original exception is re-raised unchanged,
  `.error m` when an internal failure with text `m` propagates instead.
-/
structure CtxOutcome where
  fs : FS
  events : List (Nat × String)
  dumpedTo : Option String
  raised : Except String PyException

/-- base.py lines 399-418, `dump_on_exception`, restricted to the case
where the wrapped block raised `e` with trace `trace` (`inspect.trace()`
inside the handler): when the trace has more than one entry the
representation of `trace[1:]` and of `e` is dumped and the dump message
is logged at fatal level, then the original exception is re-raised. -/
def dumpOnException (g : GlobalState) (env : SysEnv) (fs : FS)
    (trace : List FrameInfo) (e : PyException) (dump_path : Option String) :
    CtxOutcome :=
  if trace.length > 1 then
    match _dump g env fs (trace.drop 1) (some e) dump_path with
    | .ok (name, fs2) => ⟨fs2, [(CRITICAL, dumpMsg name)], some name, .ok e⟩
    | .error m => ⟨fs, [], none, .error m⟩
  else ⟨fs, [], none, .ok e⟩

/-- base.py lines 435-458, `configure`, restricted to the module-global
state it mutates (the handler and level wiring on lines 460-477 touch
only the host logging library): the package name and the dump-locals
flag are overwritten unconditionally; the global dump path is overwritten
with the resolved `dump_path` only when `dump_path is not None`. -/
def configure (g : GlobalState) (env : SysEnv) (package_name : String)
    (dump_locals : Bool) (dump_path : Option String) : GlobalState :=
  { packageName := some package_name
    dumpLocals := dump_locals
    dumpPath := match dump_path with
      | none => g.dumpPath
      | some p => some (_resolve_path env p) }

/-! Claim-side reformulations. -/

/-- The package filter exactly as the claim about `_stack_dumps` words
it: with no package name configured every module passes; with package
name `P` a module passes when its name equals `P` or begins with `P`
followed by a dot. -/
def claimIncluded (package_name : Option String) (m : String) : Bool :=
  match package_name with
  | none => true
  | some p => m == p || (p ++ ".").data.isPrefixOf m.data

/-- The frame-selection rule of the claim about `_stack_dumps`, written
as a single left-to-right walk: `lastMod` is the module of the nearest
earlier frame that has one; a moduleless frame borrows it and a frame
with no originating module at all is skipped. -/
def claimStackSections (package_name : Option String) :
    Option String → List FrameInfo → String
  | _, [] => ""
  | lastMod, f :: rest =>
    (match (match f.moduleName with
            | some m => some m
            | none => lastMod) with
     | none => ""
     | some m => if claimIncluded package_name m then frameSection f else "")
      ++ claimStackSections package_name
          (match f.moduleName with
           | some m => some m
           | none => lastMod) rest

/-- Container recognizer: the element list of a value matched by
`isinstance(value, (list, tuple, set, collections.deque))`. -/
def containerElems : PyValue → Option (List PyValue)
  | .vList es => some es
  | .vTuple es => some es
  | .vSet es => some es
  | .vDeque es => some es
  | _ => none

/-- The exception part of the dump text, spelled out: the exception
type (module-qualified), its message and its argument tuple.  Identical
to the payload `_exception_dumps` produces for an actual exception. -/
def exceptionText (exc : PyException) : String :=
  "Exception:\n  " ++ exc.typeModule ++ "." ++ exc.typeName ++ ": "
    ++ exc.message ++ "\n  args: " ++ exc.argsRepr ++ "\n\n"

/-- The line-continuation rule as the docstring of
`_apply_line_continuation` and the specification word it: a
representation containing a newline is prefixed with a backslash and a
newline, and every interior newline is followed by a two-space indent
(the value the source computes on base.py line 95 and then discards). -/
def applyLineContinuationSpec (obj_repr : String) : String :=
  if obj_repr.data.contains nlChar then
    String.singleton bsChar ++ "\n  " ++ indentNewlines obj_repr
  else obj_repr

/-! Concrete fixtures used by counterexamples and witnesses. -/

def c1State : GlobalState := ⟨some "mypkg", none, false⟩
def c1Env : SysEnv := ⟨"/work", "/root", [], "/tmp/d1"⟩
def c1Frame : FrameInfo :=
  ⟨some "mypkg.mod", "/app/m.py", 3, "run", [("x", .vInt 1)], none⟩
def c1Exc : PyException := ⟨"builtins", "ValueError", "boom", "(1,)"⟩
def c1Text : String :=
  _stack_dumps [c1Frame] (some "mypkg") ++ "\n" ++ exceptionText c1Exc

def c5State : GlobalState := ⟨some "mypkg", none, false⟩
def c5Env : SysEnv := ⟨"/work", "/root", [], "/tmp/d5"⟩
def c5Frame : FrameInfo :=
  ⟨some "mypkg.mod", "/app/m.py", 7, "go", [("y", .vStr "a")], none⟩
def c5Exc : PyException := ⟨"builtins", "KeyError", "k", "(2,)"⟩

def c6Env : SysEnv := ⟨"/work", "/root", [], "/tmp/d6"⟩
def c6Frame : FrameInfo :=
  ⟨some "mypkg.mod", "/app/m.py", 9, "main", [("z", .vInt 2)], none⟩

def c7State : GlobalState := ⟨some "mypkg", none, false⟩
def c7Env : SysEnv := ⟨"/work", "/root", [("alice", "/home/alice")], "/tmp/d7"⟩
def c7Exc : PyException := ⟨"builtins", "OSError", "fail", "(3,)"⟩

def c9State : GlobalState := ⟨some "oldpkg", some "/var/log/d.txt", false⟩
def c9Env : SysEnv := ⟨"/work", "/root", [], "/tmp/d9"⟩
def c9Exc : PyException := ⟨"builtins", "TypeError", "bad", "(4,)"⟩

def c10State : GlobalState := ⟨some "mypkg", some "/var/log/old.txt", false⟩
def c10Env : SysEnv := ⟨"/work", "/root", [], "/tmp/d10"⟩
def c10Exc : PyException := ⟨"builtins", "RuntimeError", "oops", "(5,)"⟩
def c10Fs : FS := [("/var/log/old.txt", "OLD-CONTENTS\n")]

/-! Helper lemmas about the file-system model. -/

theorem fsRead_fsSet_self (fs : FS) (p s : String) :
    fsRead (fsSet fs p s) p = some s := by
  induction fs with
  | nil => simp [fsSet, fsRead, List.find?]
  | cons kv rest ih =>
    by_cases h : kv.1 = p
    · simp [fsSet, fsRead, List.find?, h]
    · simpa [fsSet, fsRead, List.find?, h] using ih


theorem fsRead_fsSet_other (fs : FS) (p s q : String) (hq : q ≠ p) :
    fsRead (fsSet fs p s) q = fsRead fs q := by
  have hpq : (p == q) = false := beq_eq_false_iff_ne.mpr (Ne.symm hq)
  induction fs with
  | nil => simp [fsSet, fsRead, List.find?, hpq]
  | cons kv rest ih =>
    by_cases h : kv.1 = p
    · have hkq : (kv.1 == q) = false := beq_eq_false_iff_ne.mpr (h ▸ Ne.symm hq)
      simp [fsSet, fsRead, List.find?, h, hpq, hkq]
    · have h2 : (kv.1 == p) = false := beq_eq_false_iff_ne.mpr h
      by_cases hkq : kv.1 = q
      · simp [fsSet, fsRead, List.find?, h2, hkq, hq]
      · have hkq2 : (kv.1 == q) = false := beq_eq_false_iff_ne.mpr hkq
        simpa [fsSet, fsRead, List.find?, h2, hkq2] using ih

theorem fsRead_fsAppend_self (fs : FS) (p s : String) :
    fsRead (fsAppend fs p s) p = some ((fsRead fs p).getD "" ++ s) :=
  fsRead_fsSet_self fs p _

/-! Helper lemmas about the dump target. -/

/-- With an actual exception, `_dump` always succeeds. -/
theorem dump_some_ok (g : GlobalState) (env : SysEnv) (fs : FS)
    (stack : List FrameInfo) (exc : PyException) (dp : Option String) :
    ∃ name fs2, _dump g env fs stack (some exc) dp = .ok (name, fs2) := by
  unfold _dump _exception_dumps
  cases pyOrPath dp g.dumpPath <;> simp

/-! Helper lemmas about absolute paths. -/

theorem isAbsPath_append_left (a b : String) (h : isAbsPath a = true) :
    isAbsPath (a ++ b) = true := by
  unfold isAbsPath at h ⊢
  rw [String.data_append]
  cases hd : a.data with
  | nil => rw [hd] at h; simp at h
  | cons c rest => rw [hd] at h; simpa using h

theorem isAbsPath_data (p : String) (h : isAbsPath p = true) :
    ∃ rest, p.data = slashChar :: rest := by
  unfold isAbsPath at h
  cases hd : p.data with
  | nil => rw [hd] at h; simp at h
  | cons c rest =>
    rw [hd] at h
    simp at h
    exact ⟨rest, by rw [h]⟩

theorem isAbsPath_joinPath (a b : String) (h : isAbsPath a = true) :
    isAbsPath (joinPath a b) = true := by
  unfold joinPath
  by_cases hb : isAbsPath b = true
  · rw [if_pos hb]; exact hb
  · rw [if_neg (by simpa using hb)]
    by_cases he : a = "" ∨ a.data.getLast? = some slashChar
    · rw [if_pos he]
      rcases he with he | _
      · rw [he] at h; exact absurd h (by decide)
      · exact isAbsPath_append_left _ _ h
    · rw [if_neg he]
      exact isAbsPath_append_left _ _ (isAbsPath_append_left _ _ h)

theorem leadSlashCountOf_pos (p : String) (h : isAbsPath p = true) :
    1 ≤ leadSlashCountOf p := by
  obtain ⟨rest, hd⟩ := isAbsPath_data p h
  unfold leadSlashCountOf
  rw [hd, List.takeWhile_cons_of_pos (by simp)]
  simp only [List.length_cons]
  split_ifs <;> omega

theorem isAbsPath_normpath (p : String) (h : isAbsPath p = true) :
    isAbsPath (normpath p) = true := by
  obtain ⟨rest, hd⟩ := isAbsPath_data p h
  have hne : p ≠ "" := by
    intro he
    rw [he] at hd
    simp [String.data] at hd
  obtain ⟨k0, hk0⟩ : ∃ k0, leadSlashCountOf p = k0 + 1 :=
    ⟨leadSlashCountOf p - 1, by have := leadSlashCountOf_pos p h; omega⟩
  have hdata : (String.mk (List.replicate (leadSlashCountOf p) slashChar) ++ normpathBody p).data
      = slashChar :: (List.replicate k0 slashChar ++ (normpathBody p).data) := by
    rw [String.data_append, hk0]
    simp [List.replicate_succ]
  have hrne : String.mk (List.replicate (leadSlashCountOf p) slashChar) ++ normpathBody p ≠ "" := by
    intro he
    have h2 := congrArg String.data he
    rw [hdata] at h2
    simp at h2
  unfold normpath
  rw [if_neg hne, if_neg hrne]
  unfold isAbsPath
  rw [hdata]
  simp

theorem isAbsPath_resolve (env : SysEnv) (p : String)
    (hcwd : isAbsPath env.cwd = true) :
    isAbsPath (_resolve_path env p) = true := by
  unfold _resolve_path
  by_cases h : isAbsPath (expanduser env.home env.userHomes p) = true
  · rw [if_pos h]; exact h
  · rw [if_neg (by simpa using h)]
    exact isAbsPath_normpath _ (isAbsPath_joinPath _ _ hcwd)

/-- On a path that does not start with a tilde, `expanduser` is the
identity. -/
theorem expanduser_of_not_tilde (home : String) (userHomes : List (String × String))
    (p : String) (h : p.data.head? ≠ some tildeChar) :
    expanduser home userHomes p = p := by
  unfold expanduser
  rw [if_neg h]

/-- On an already absolute path, `_resolve_path` is the identity: an
absolute path cannot start with a tilde, and the absolute branch returns
it unchanged. -/
theorem resolve_of_abs (env : SysEnv) (p : String) (h : isAbsPath p = true) :
    _resolve_path env p = p := by
  have hhead : p.data.head? ≠ some tildeChar := by
    obtain ⟨rest, hd⟩ := isAbsPath_data p h
    rw [hd]
    simp only [List.head?_cons, ne_eq, Option.some.injEq]
    decide
  unfold _resolve_path
  rw [expanduser_of_not_tilde _ _ _ hhead, if_pos h]

theorem moduleMatches_eq_claimIncluded (p : Option String) (m : String) :
    moduleMatches p m = claimIncluded p m := by
  cases p with
  | none => rfl
  | some q => simp [moduleMatches, claimIncluded, Bool.or_comm]

theorem lastSome_append_single (l : List (Option String)) (x : Option String) :
    lastSome (l ++ [x]) = (match x with
      | some m => some m
      | none => lastSome l) := by
  unfold lastSome
  rw [List.reverse_append]
  cases x <;> simp [List.findSome?]

/-- The loop of `_stack_dumps`, started after a processed prefix `pre`,
agrees with the claim-side walk seeded with the last module of the
prefix. -/
theorem stackDumpsFrom_eq_claim (p : Option String) (rest : List FrameInfo) :
    ∀ pre : List FrameInfo,
      stackDumpsFrom ((pre ++ rest).map (·.moduleName)) p pre.length rest
        = claimStackSections p (lastSome (pre.map (·.moduleName))) rest := by
  induction rest with
  | nil => intro pre; rfl
  | cons f rest ih =>
    intro pre
    have htake : ((pre ++ f :: rest).map (·.moduleName)).take pre.length
        = pre.map (·.moduleName) := by
      rw [List.map_append]
      have hlen : pre.length = (pre.map (·.moduleName)).length := by simp
      rw [hlen, List.take_left]
    have hrec : stackDumpsFrom ((pre ++ f :: rest).map (·.moduleName)) p
          (pre.length + 1) rest
        = claimStackSections p (lastSome ((pre ++ [f]).map (·.moduleName))) rest := by
      have hassoc : pre ++ f :: rest = (pre ++ [f]) ++ rest := by simp
      have hlen2 : pre.length + 1 = (pre ++ [f]).length := by simp
      rw [hassoc, hlen2]
      exact ih (pre ++ [f])
    unfold stackDumpsFrom claimStackSections
    rw [htake, hrec]
    have hupd : lastSome ((pre ++ [f]).map (·.moduleName))
        = (match f.moduleName with
           | some m => some m
           | none => lastSome (pre.map (·.moduleName))) := by
      rw [List.map_append]
      exact lastSome_append_single _ _
    rw [hupd]
    cases f.moduleName with
    | some m => simp [moduleMatches_eq_claimIncluded]
    | none =>
      cases lastSome (pre.map (·.moduleName)) with
      | some m => simp [moduleMatches_eq_claimIncluded]
      | none => simp

theorem pformatElems_eq_enumFrom (name : String) (es : List PyValue) :
    ∀ i, pformatElems name i es
      = (List.enumFrom i es).map fun p =>
          indentNewlines (pformat (name ++ "[" ++ toString p.1 ++ "]") p.2) := by
  induction es with
  | nil => intro i; rfl
  | cons v rest ih =>
    intro i
    simp only [pformatElems, List.enumFrom, List.map_cons]
    rw [ih (i + 1)]

/-! Claim theorems. -/

/-- C2: for every stack and package name, `_stack_dumps` emits a locals
section for a frame if and only if the frame's originating module — or,
for a moduleless frame, the module of the nearest earlier frame that has
one, frames with no such predecessor being skipped — has a name equal to
the package name or beginning with it followed by a dot; with no package
name configured, every frame whose module can be resolved is included.
Stated as: the string `_stack_dumps` builds equals the one built by a
walk that applies exactly the claim's selection rule frame by frame. -/
theorem stack_dumps_package_filter (stack : List FrameInfo) (p : Option String) :
    _stack_dumps stack p = claimStackSections p none stack :=
  stackDumpsFrom_eq_claim p stack []

/-- C3 (code bug): `_apply_line_continuation` never applies the rule its
docstring and the specification describe.  At the concrete multi-line
representation produced by `pformat` for a nested list — a value that
reaches the container branch — the function returns its argument
unchanged, while the documented rule would prefix a backslash and a
newline and indent the interior newline. -/
theorem apply_line_continuation_noop_at_nested_list :
    pformat "x" (.vList [.vList [.vInt 0]]) = "x = <builtins.list>\n  x[0] = [0]"
    ∧ _apply_line_continuation "x = <builtins.list>\n  x[0] = [0]"
        = "x = <builtins.list>\n  x[0] = [0]"
    ∧ applyLineContinuationSpec "x = <builtins.list>\n  x[0] = [0]"
        = String.singleton bsChar ++ "\n  x = <builtins.list>\n    x[0] = [0]"
    ∧ applyLineContinuationSpec "x = <builtins.list>\n  x[0] = [0]"
        ≠ _apply_line_continuation "x = <builtins.list>\n  x[0] = [0]" := by
  refine ⟨by decide, rfl, by decide, by decide⟩

/-- C4: `pformat` is deterministic — two calls with the same name and
the same value return the same string. -/
theorem pformat_deterministic (n1 n2 : String) (v1 v2 : PyValue)
    (h1 : n1 = n2) (h2 : v1 = v2) :
    pformat n1 v1 = pformat n2 v2 := by
  rw [h1, h2]

theorem pformat_deterministic_witness :
    pformat "x" (.vInt 3) = pformat "x" (.vInt 3) :=
  pformat_deterministic "x" "x" (.vInt 3) (.vInt 3) rfl rfl

/-- C8: for a list, tuple, set or deque whose elements all satisfy
`isinstance(v, (int, str))` — vacuously including the empty container —
`pformat` returns the single line `name = repr(value)`; when some
element has another type it returns the multi-line form headed by
`name = <module.typename>` with one entry per element, formatted
recursively under `name[i]` in element order and indented by two
spaces. -/
theorem pformat_container_rule (name : String) (v : PyValue) (es : List PyValue)
    (h : containerElems v = some es) :
    (es.all isinstIntOrStr = true →
      pformat name v = name ++ " = " ++ pyRepr v)
    ∧ (es.all isinstIntOrStr = false →
      pformat name v
        = name ++ " = <" ++ pyTypeModule v ++ "." ++ pyTypeName v ++ ">\n  "
          ++ joinSep "\n  " (es.enum.map fun p =>
              indentNewlines (pformat (name ++ "[" ++ toString p.1 ++ "]") p.2))) := by
  cases v <;> simp only [containerElems, Option.some.injEq, reduceCtorEq] at h <;>
    subst h <;>
    constructor <;> intro hall <;>
    simp [pformat, _apply_line_continuation, hall, pformatElems_eq_enumFrom,
      List.enum, pyTypeModule, pyTypeName]

theorem pformat_container_rule_witness :
    containerElems (.vList [.vInt 1, .vStr "a"]) = some [.vInt 1, .vStr "a"]
    ∧ pformat "xs" (.vList [.vInt 1, .vStr "a"]) = "xs" ++ " = "
        ++ pyRepr (.vList [.vInt 1, .vStr "a"])
    ∧ containerElems (.vList [.vList [.vInt 0]]) = some [.vList [.vInt 0]]
    ∧ pformat "xs" (.vList [.vList [.vInt 0]]) = "xs = <builtins.list>\n  xs[0] = [0]" := by
  refine ⟨rfl, (pformat_container_rule "xs" (.vList [.vInt 1, .vStr "a"])
      [.vInt 1, .vStr "a"] rfl).1 (by decide), rfl, ?_⟩
  have h := (pformat_container_rule "xs" (.vList [.vList [.vInt 0]])
      [.vList [.vInt 0]] rfl).2 (by decide)
  rw [h]
  decide

/-- C5: whatever exception the governed block raised, `dump_on_exception`
re-raises that very exception — it never swallows it — and it writes a
dump (logging the dump message) exactly when the trace has more than one
entry. -/
theorem dump_on_exception_reraises (g : GlobalState) (env : SysEnv) (fs : FS)
    (trace : List FrameInfo) (e : PyException) (dp : Option String) :
    (dumpOnException g env fs trace e dp).raised = .ok e
    ∧ ((dumpOnException g env fs trace e dp).dumpedTo.isSome ↔ trace.length > 1)
    ∧ (trace.length > 1 →
        ∃ name fs2,
          _dump g env fs (trace.drop 1) (some e) dp = .ok (name, fs2)
          ∧ (dumpOnException g env fs trace e dp).fs = fs2
          ∧ (dumpOnException g env fs trace e dp).dumpedTo = some name
          ∧ (dumpOnException g env fs trace e dp).events
              = [(CRITICAL, dumpMsg name)]) := by
  obtain ⟨name, fs2, hd⟩ := dump_some_ok g env fs (trace.drop 1) e dp
  have hdt : _dump g env fs trace.tail (some e) dp = .ok (name, fs2) := by
    rw [← List.drop_one]
    exact hd
  by_cases h : trace.length > 1
  · refine ⟨by simp [dumpOnException, h, hdt], by simp [dumpOnException, h, hdt], ?_⟩
    intro _
    exact ⟨name, fs2, hd, by simp [dumpOnException, h, hdt],
      by simp [dumpOnException, h, hdt], by simp [dumpOnException, h, hdt]⟩
  · exact ⟨by simp [dumpOnException, h], by simp [dumpOnException, h],
      fun hc => absurd hc h⟩

theorem dump_on_exception_reraises_witness :
    (dumpOnException c5State c5Env [] [c5Frame, c5Frame] c5Exc none).raised = .ok c5Exc
    ∧ ((dumpOnException c5State c5Env [] [c5Frame, c5Frame] c5Exc none).dumpedTo.isSome
        ↔ [c5Frame, c5Frame].length > 1)
    ∧ (dumpOnException c5State c5Env [] [c5Frame, c5Frame] c5Exc none).dumpedTo.isSome
        = true := by
  have h := dump_on_exception_reraises c5State c5Env [] [c5Frame, c5Frame] c5Exc none
  refine ⟨h.1, h.2.1, ?_⟩
  obtain ⟨name, fs2, -, -, h3, -⟩ := h.2.2 (by decide)
  rw [h3]
  rfl

/-- C6 (code bug): with local-dumping enabled, a `Yogger` log call at
warning level or higher does not write a dump file and log the dump
message as the specification says; instead `_dump` is reached with
`e=None`, `_exception_dumps(None)` evaluates `None.args`, and the
resulting `AttributeError` propagates out of the logging call after the
original message was logged and before any file is written.  With
local-dumping disabled, or below warning level, nothing is dumped and
nothing is raised, as claimed. -/
theorem yogger_dump_locals_attribute_error :
    (yoggerLog ⟨some "mypkg", none, true⟩ c6Env [] WARNING "boom" [c6Frame]).raised
        = some noneArgsAttributeError
    ∧ (yoggerLog ⟨some "mypkg", none, true⟩ c6Env [] WARNING "boom" [c6Frame]).dumpedTo
        = none
    ∧ (yoggerLog ⟨some "mypkg", none, true⟩ c6Env [] WARNING "boom" [c6Frame]).fs = []
    ∧ (yoggerLog ⟨some "mypkg", none, true⟩ c6Env [] WARNING "boom" [c6Frame]).events
        = [(WARNING, "boom")]
    ∧ (yoggerWarning ⟨some "mypkg", none, true⟩ c6Env [] "boom" [c6Frame]).raised
        = some noneArgsAttributeError
    ∧ (yoggerError ⟨some "mypkg", none, true⟩ c6Env [] "boom" [c6Frame]).raised
        = some noneArgsAttributeError
    ∧ (yoggerCritical ⟨some "mypkg", none, true⟩ c6Env [] "boom" [c6Frame]).raised
        = some noneArgsAttributeError
    ∧ (yoggerLog ⟨some "mypkg", none, false⟩ c6Env [] WARNING "boom" [c6Frame]).raised
        = none
    ∧ (yoggerLog ⟨some "mypkg", none, false⟩ c6Env [] WARNING "boom" [c6Frame]).dumpedTo
        = none
    ∧ (yoggerLog ⟨some "mypkg", none, true⟩ c6Env [] INFO "info" [c6Frame]).raised
        = none
    ∧ (yoggerLog ⟨some "mypkg", none, true⟩ c6Env [] INFO "info" [c6Frame]).dumpedTo
        = none := by
  decide

/-- C7: when neither a per-call path nor a configured path is in effect,
`_dump` writes the dump to the fresh named temporary file and returns
its path; when a path is supplied — per call or at configure time, where
it is stored resolved — the file opened is the supplied path resolved:
`~` and `~user` are expanded first, the result is absolute whenever the
current working directory is, and a path still relative after expansion
is made absolute against the current working directory. -/
theorem dump_path_resolution (g : GlobalState) (env : SysEnv) (fs : FS)
    (stack : List FrameInfo) (exc : PyException) (dp : Option String) :
    (pyOrPath dp g.dumpPath = none →
      _dump g env fs stack (some exc) dp
        = .ok (env.tempName,
            fsSet fs env.tempName
              (_stack_dumps stack g.packageName ++ "\n" ++ exceptionText exc))
      ∧ fsRead (fsSet fs env.tempName
            (_stack_dumps stack g.packageName ++ "\n" ++ exceptionText exc))
          env.tempName
        = some (_stack_dumps stack g.packageName ++ "\n" ++ exceptionText exc))
    ∧ (∀ q, pyOrPath dp g.dumpPath = some q → isAbsPath env.cwd = true →
        _dump g env fs stack (some exc) dp
          = .ok (_resolve_path env q,
              fsAppend fs (_resolve_path env q)
                (_stack_dumps stack g.packageName ++ "\n" ++ exceptionText exc))
        ∧ isAbsPath (_resolve_path env q) = true
        ∧ (isAbsPath (expanduser env.home env.userHomes q) = false →
            _resolve_path env q
              = normpath (joinPath env.cwd (expanduser env.home env.userHomes q))))
    ∧ (∀ pn dl p2, (configure g env pn dl (some p2)).dumpPath
        = some (_resolve_path env p2)) := by
  refine ⟨?_, ?_, fun pn dl p2 => rfl⟩
  · intro h
    constructor
    · unfold _dump
      simp [_exception_dumps, h, exceptionText]
    · exact fsRead_fsSet_self fs env.tempName _
  · intro q hq hcwd
    refine ⟨?_, isAbsPath_resolve env q hcwd, ?_⟩
    · unfold _dump
      simp [_exception_dumps, hq, exceptionText]
    · intro hrel
      unfold _resolve_path
      rw [if_neg (by simp [hrel])]

theorem dump_path_resolution_witness :
    (_dump c7State c7Env [] [] (some c7Exc) none
        = .ok (c7Env.tempName,
            fsSet [] c7Env.tempName
              (_stack_dumps [] c7State.packageName ++ "\n" ++ exceptionText c7Exc)))
    ∧ (_dump c7State c7Env [] [] (some c7Exc) (some "logs/out.txt")
        = .ok (_resolve_path c7Env "logs/out.txt",
            fsAppend [] (_resolve_path c7Env "logs/out.txt")
              (_stack_dumps [] c7State.packageName ++ "\n" ++ exceptionText c7Exc)))
    ∧ isAbsPath (_resolve_path c7Env "logs/out.txt") = true
    ∧ _resolve_path c7Env "logs/out.txt"
        = normpath (joinPath c7Env.cwd
            (expanduser c7Env.home c7Env.userHomes "logs/out.txt")) := by
  have h1 := (dump_path_resolution c7State c7Env [] [] c7Exc none).1 (by decide)
  have h2 := (dump_path_resolution c7State c7Env [] [] c7Exc
      (some "logs/out.txt")).2.1 "logs/out.txt" (by decide) (by decide)
  exact ⟨h1.1, h2.1, h2.2.1, h2.2.2 (by decide)⟩

/-- C9: calling `configure` with `dump_path=None` leaves the stored dump
path unchanged — a later dump with no per-call override still goes to
the previously configured (absolute) path, not to a temporary file —
while the package name and the dump-locals flag are overwritten
unconditionally on every call. -/
theorem configure_none_keeps_dump_path (g : GlobalState) (env : SysEnv)
    (pn : String) (dl : Bool) (fs : FS) (stack : List FrameInfo)
    (exc : PyException) (q : String)
    (hq : g.dumpPath = some q) (habs : isAbsPath q = true) :
    (configure g env pn dl none).dumpPath = g.dumpPath
    ∧ (∀ dp2, (configure g env pn dl dp2).packageName = some pn
        ∧ (configure g env pn dl dp2).dumpLocals = dl)
    ∧ _dump (configure g env pn dl none) env fs stack (some exc) none
        = .ok (q, fsAppend fs q
            (_stack_dumps stack (some pn) ++ "\n" ++ exceptionText exc)) := by
  refine ⟨rfl, fun dp2 => ⟨rfl, rfl⟩, ?_⟩
  have hsel : pyOrPath none (configure g env pn dl none).dumpPath = some q := by
    simp [configure, pyOrPath, pyTruthyPath, hq]
  unfold _dump
  simp only [_exception_dumps]
  rw [hsel]
  simp [resolve_of_abs env q habs, exceptionText, configure]

theorem configure_none_keeps_dump_path_witness :
    (configure c9State c9Env "newpkg" true none).dumpPath = c9State.dumpPath
    ∧ (configure c9State c9Env "newpkg" true none).packageName = some "newpkg"
    ∧ (configure c9State c9Env "newpkg" true none).dumpLocals = true
    ∧ _dump (configure c9State c9Env "newpkg" true none) c9Env [] [] (some c9Exc) none
        = .ok ("/var/log/d.txt", fsAppend [] "/var/log/d.txt"
            (_stack_dumps [] (some "newpkg") ++ "\n" ++ exceptionText c9Exc)) := by
  have h := configure_none_keeps_dump_path c9State c9Env "newpkg" true [] [] c9Exc
      "/var/log/d.txt" rfl (by decide)
  exact ⟨h.1, (h.2.1 none).1, (h.2.1 none).2, h.2.2⟩

/-- C10: when a user-provided dump path is in effect, `_dump` opens it
in append mode: the file afterwards holds its previous contents (empty
for a missing file) followed by the new dump text, and every other file
is untouched — nothing is truncated. -/
theorem dump_appends_to_user_path (g : GlobalState) (env : SysEnv) (fs : FS)
    (stack : List FrameInfo) (exc : PyException) (dp : Option String) (q : String)
    (hq : pyOrPath dp g.dumpPath = some q) :
    _dump g env fs stack (some exc) dp
      = .ok (_resolve_path env q,
          fsAppend fs (_resolve_path env q)
            (_stack_dumps stack g.packageName ++ "\n" ++ exceptionText exc))
    ∧ fsRead (fsAppend fs (_resolve_path env q)
          (_stack_dumps stack g.packageName ++ "\n" ++ exceptionText exc))
        (_resolve_path env q)
      = some ((fsRead fs (_resolve_path env q)).getD ""
          ++ (_stack_dumps stack g.packageName ++ "\n" ++ exceptionText exc))
    ∧ (∀ p2, p2 ≠ _resolve_path env q →
        fsRead (fsAppend fs (_resolve_path env q)
            (_stack_dumps stack g.packageName ++ "\n" ++ exceptionText exc)) p2
          = fsRead fs p2) := by
  refine ⟨?_, fsRead_fsAppend_self _ _ _,
    fun p2 hp2 => fsRead_fsSet_other _ _ _ _ hp2⟩
  unfold _dump
  simp [_exception_dumps, hq, exceptionText]

theorem dump_appends_to_user_path_witness :
    _dump c10State c10Env c10Fs [] (some c10Exc) none
      = .ok (_resolve_path c10Env "/var/log/old.txt",
          fsAppend c10Fs (_resolve_path c10Env "/var/log/old.txt")
            (_stack_dumps [] c10State.packageName ++ "\n" ++ exceptionText c10Exc))
    ∧ fsRead (fsAppend c10Fs (_resolve_path c10Env "/var/log/old.txt")
          (_stack_dumps [] c10State.packageName ++ "\n" ++ exceptionText c10Exc))
        (_resolve_path c10Env "/var/log/old.txt")
      = some ((fsRead c10Fs (_resolve_path c10Env "/var/log/old.txt")).getD ""
          ++ (_stack_dumps [] c10State.packageName ++ "\n" ++ exceptionText c10Exc)) := by
  have h := dump_appends_to_user_path c10State c10Env c10Fs [] c10Exc none
      "/var/log/old.txt" (by decide)
  exact ⟨h.1, h.2.1⟩

/-- C1 (counterexample): the claim puts the exception summary before the
frame sections, but at this concrete dump the written text starts with
the frame section ("Locals from file ...") and not with the exception
summary (which always starts with "Exception:"). -/
theorem dump_text_not_exception_first :
    _dump c1State c1Env [] [c1Frame] (some c1Exc) none
        = .ok ("/tmp/d1", [("/tmp/d1", c1Text)])
    ∧ ("Exception:".data.isPrefixOf (exceptionText c1Exc).data) = true
    ∧ ("Exception:".data.isPrefixOf c1Text.data) = false
    ∧ ("Locals from file".data.isPrefixOf c1Text.data) = true := by
  refine ⟨rfl, by decide, by decide, by decide⟩

/-- C1 (amended): the text `_dump` appends to the dump file is, in
order, one section per relevant stack frame, a separating newline, and
then the exception summary carrying the exception's type, message and
arguments — the stack part comes first and the exception summary last,
the reverse of the claimed order. -/
theorem dump_text_stack_then_exception (g : GlobalState) (env : SysEnv) (fs : FS)
    (stack : List FrameInfo) (exc : PyException) (dp : Option String)
    (path : String) (fs2 : FS)
    (h : _dump g env fs stack (some exc) dp = .ok (path, fs2)) :
    fsRead fs2 path
      = some ((match pyOrPath dp g.dumpPath with
          | some _ => (fsRead fs path).getD ""
          | none => "")
        ++ (_stack_dumps stack g.packageName ++ "\n"
            ++ ("Exception:\n  " ++ exc.typeModule ++ "." ++ exc.typeName ++ ": "
                ++ exc.message ++ "\n  args: " ++ exc.argsRepr ++ "\n\n"))) := by
  unfold _dump at h
  simp only [_exception_dumps] at h
  cases hp : pyOrPath dp g.dumpPath with
  | some p =>
    rw [hp] at h
    simp only [Except.ok.injEq, Prod.mk.injEq] at h
    obtain ⟨hpath, hfs⟩ := h
    subst hpath
    subst hfs
    exact fsRead_fsAppend_self fs (_resolve_path env p) _
  | none =>
    rw [hp] at h
    simp only [Except.ok.injEq, Prod.mk.injEq] at h
    obtain ⟨hpath, hfs⟩ := h
    subst hpath
    subst hfs
    exact fsRead_fsSet_self fs env.tempName _

theorem dump_text_stack_then_exception_witness :
    fsRead [("/tmp/d1", c1Text)] "/tmp/d1"
      = some ((match pyOrPath none c1State.dumpPath with
          | some _ => (fsRead ([] : FS) "/tmp/d1").getD ""
          | none => "")
        ++ (_stack_dumps [c1Frame] c1State.packageName ++ "\n"
            ++ ("Exception:\n  " ++ c1Exc.typeModule ++ "." ++ c1Exc.typeName ++ ": "
                ++ c1Exc.message ++ "\n  args: " ++ c1Exc.argsRepr ++ "\n\n"))) :=
  dump_text_stack_then_exception c1State c1Env [] [c1Frame] c1Exc none
    "/tmp/d1" [("/tmp/d1", c1Text)] rfl
